import Mathlib

/-!
Verification of the ha-components CI helper scripts.

The repository consists of four Python scripts that validate Home Assistant
blueprint YAML files.  This file gives a shallow embedding of the relevant
functions and proves properties about them.

Python values produced by YAML parsing are modelled by the inductive type
`Py`.  Dictionaries are association lists with string keys (the scripts only
ever access string keys).  Exceptions raised by Python operations are
modelled with `Except PyErr`.
-/

/-- Kinds of Python exceptions the embedded operations can raise. -/
inductive PyErr where
  | typeError
  | keyError
  | attributeError
deriving DecidableEq

/-- Python values as produced by YAML parsing. -/
inductive Py where
  | none
  | bool (b : Bool)
  | int (n : Int)
  | str (s : String)
  | list (xs : List Py)
  | dict (entries : List (String × Py))

/-- A single quote character, used to build the error message strings. -/
def squote : String := String.singleton (Char.ofNat 39)

/-- First value bound to key `k` in an association list. -/
def lookupKey (entries : List (String × Py)) (k : String) : Option Py :=
  match entries with
  | [] => Option.none
  | (k2, v) :: rest => if k2 = k then some v else lookupKey rest k

/-- Dictionary key-membership test. -/
def containsKey (entries : List (String × Py)) (k : String) : Bool :=
  (lookupKey entries k).isSome

/-- Value bound to key `k`, or a default. Models `dict.get(k, d)`. -/
def dictGetD (entries : List (String × Py)) (k : String) (d : Py) : Py :=
  (lookupKey entries k).getD d

/-- Python membership test `k in o` for a string `k`.  Key membership on
dictionaries, element membership on lists, substring test on strings, and a
`TypeError` on the remaining types. -/
def pyContains (k : String) (o : Py) : Except PyErr Bool :=
  match o with
  | Py.dict entries => Except.ok (containsKey entries k)
  | Py.list xs => Except.ok (xs.any (fun x => match x with
      | Py.str s => s == k
      | _ => false))
  | Py.str s => Except.ok (strContainsSub k s)
  | _ => Except.error PyErr.typeError
where
  /-- `isPre pat l` holds when `pat` is a prefix of `l`. -/
  isPre : List Char → List Char → Bool
    | [], _ => true
    | _ :: _, [] => false
    | a :: as, b :: bs => if a = b then isPre as bs else false
  /-- Substring occurrence test, models `needle in haystack` on strings. -/
  strOccur (pat : List Char) : List Char → Bool
    | [] => isPre pat []
    | c :: rest => isPre pat (c :: rest) || strOccur pat rest
  strContainsSub (needle haystack : String) : Bool :=
    strOccur needle.data haystack.data

/-- Python subscript `o[k]` for a string `k`: dictionary lookup raising
`KeyError` when absent, `TypeError` on every other type. -/
def pySubscript (o : Py) (k : String) : Except PyErr Py :=
  match o with
  | Py.dict entries =>
    match lookupKey entries k with
    | some v => Except.ok v
    | Option.none => Except.error PyErr.keyError
  | _ => Except.error PyErr.typeError

/-- Python `o.get(k, d)`: only dictionaries have the `get` attribute. -/
def pyGetDefault (o : Py) (k : String) (d : Py) : Except PyErr Py :=
  match o with
  | Py.dict entries => Except.ok (dictGetD entries k d)
  | _ => Except.error PyErr.attributeError

/-- Python `o.get(k)` (default `None`). -/
def pyGet (o : Py) (k : String) : Except PyErr Py :=
  pyGetDefault o k Py.none

/-- Equality of a Python value with a string literal. -/
def pyEqStr (v : Py) (t : String) : Bool :=
  match v with
  | Py.str s => s == t
  | _ => false

/-- `v is None` test. -/
def pyIsNone (v : Py) : Bool :=
  match v with
  | Py.none => true
  | _ => false

/-- Membership of a Python value in a list of string literals. -/
def pyInStrList (v : Py) (l : List String) : Bool :=
  match v with
  | Py.str s => l.contains s
  | _ => false

mutual
/-- Python `repr` of a value, as used when formatting containers. -/
def pyRepr : Py → String
  | Py.none => "None"
  | Py.bool b => if b then "True" else "False"
  | Py.int n => toString n
  | Py.str s => squote ++ s ++ squote
  | Py.list xs => "[" ++ pyReprList xs ++ "]"
  | Py.dict es => "\x7b" ++ pyReprDict es ++ "\x7d"
/-- Comma separated `repr` of list elements. -/
def pyReprList : List Py → String
  | [] => ""
  | [x] => pyRepr x
  | x :: y :: rest => pyRepr x ++ ", " ++ pyReprList (y :: rest)
/-- Comma separated `repr` of dictionary items. -/
def pyReprDict : List (String × Py) → String
  | [] => ""
  | [(k, v)] => squote ++ k ++ squote ++ ": " ++ pyRepr v
  | (k, v) :: e :: rest => squote ++ k ++ squote ++ ": " ++ pyRepr v ++ ", " ++ pyReprDict (e :: rest)
end

/-- Python `str` of a value (as interpolated by an f-string). -/
def pyStr : Py → String
  | Py.str s => s
  | v => pyRepr v

namespace validate_blueprint_schema

/-- Handler for `!input` tags (validate_blueprint_schema.py line 18). -/
def construct_input (v : String) : String := "!input " ++ v

/-- Handler for `!include` tags (validate_blueprint_schema.py line 23). -/
def construct_include (v : String) : String := "!include " ++ v

/-- Handler for `!include_dir_merge_list` tags (line 28). -/
def construct_include_dir_merge_list (v : String) : String :=
  "!include_dir_merge_list " ++ v

/-- The constructor registrations on HomeAssistantLoader (lines 34-38). -/
def tag_constructors : List (String × (String → String)) :=
  [("!input", construct_input),
   ("!include", construct_include),
   ("!include_dir_merge_list", construct_include_dir_merge_list),
   ("!secret", construct_include)]

/-- Loading a scalar node carrying a custom tag: a registered constructor
produces the marker string, an unregistered tag is a parse failure. -/
def load_scalar (tag : String) (value : String) : Option String :=
  match tag_constructors.lookup tag with
  | some f => some (f value)
  | Option.none => Option.none

/-- The allowed domain values (line 60). -/
def valid_domains : List String := ["automation", "script"]

/-- The fixed set of valid selector type names (lines 111-116). -/
def valid_selectors : List String :=
  ["entity", "number", "boolean", "time", "date", "datetime",
   "text", "select", "action", "area", "device", "duration",
   "icon", "media", "object", "target", "template", "theme",
   "color_rgb", "color_temp", "location"]

/-- Error message appended at line 47. -/
def missingBlueprintMsg : String :=
  "Missing required " ++ (squote ++ ("blueprint" ++ (squote ++ " section")))

/-- Error message appended at line 56. -/
def requiredFieldMsg (field : String) : String :=
  "Missing required blueprint field: " ++ (squote ++ (field ++ squote))

/-- Error message appended at lines 62-63. -/
def invalidDomainMsg (v : Py) : String :=
  "Invalid domain: " ++
    (pyStr v ++ (". Must be one of: " ++ pyStr (Py.list (valid_domains.map Py.str))))

/-- Error message appended at line 68. -/
def inputSectionMsg : String :=
  "Blueprint " ++ (squote ++ ("input" ++ (squote ++ " section must be a dictionary")))

/-- Common shape of every message that names an input: the f-strings at
lines 72, 77, 103, 107 and 119-120 all start with Input, the quoted input
name, and a message-specific suffix. -/
def inputMsg (name suffix : String) : String :=
  "Input " ++ (squote ++ (name ++ (squote ++ suffix)))

/-- Error message appended at line 88. -/
def autoFieldMsg (field : String) : String :=
  "Missing required automation field: " ++ (squote ++ (field ++ squote))

/-- Failure line printed at line 92. -/
def failLine (file_path error : String) : String :=
  "❌ " ++ (file_path ++ (": " ++ error))

/-- Success line printed at line 95. -/
def okLine (file_path : String) : String :=
  "✅ " ++ (file_path ++ ": Valid blueprint schema")

/-- validate_selector (lines 99-120): returns the list of errors it appends
to the shared errors list. -/
def validate_selector (selector : Py) (input_name : String) : List String :=
  match selector with
  | Py.dict entries =>
    if entries.length = 1 then
      match entries with
      | (selector_type, _) :: _ =>
        if valid_selectors.contains selector_type then []
        else [inputMsg input_name (" has invalid selector type: " ++ selector_type)]
      | [] => []
    else [inputMsg input_name " selector must have exactly one type"]
  | _ => [inputMsg input_name " selector must be a dictionary"]

/-- Body of the per-input loop (lines 70-81): errors appended for one input
declaration. -/
def processInput (input_name : String) (input_config : Py) : List String :=
  match input_config with
  | Py.dict cfg =>
    (if containsKey cfg "name" then []
     else [inputMsg input_name
        (" missing required " ++ (squote ++ ("name" ++ (squote ++ " field"))))]) ++
    (match lookupKey cfg "selector" with
     | some sel => validate_selector sel input_name
     | Option.none => [])
  | _ => [inputMsg input_name " must be a dictionary"]

/-- The loop over all input declarations (line 70), in mapping order. -/
def processInputs : List (String × Py) → List String
  | [] => []
  | (n, c) :: rest => processInput n c ++ processInputs rest

/-- The required-field loop (lines 53-56): three membership tests on the
blueprint value and the errors they append. -/
def fieldsSection (blueprint : Py) : Except PyErr (List String) := do
  let hasName ← pyContains "name" blueprint
  let hasDescription ← pyContains "description" blueprint
  let hasDomain ← pyContains "domain" blueprint
  pure ((if hasName then [] else [requiredFieldMsg "name"]) ++
        (if hasDescription then [] else [requiredFieldMsg "description"]) ++
        (if hasDomain then [] else [requiredFieldMsg "domain"]))

/-- The domain-validity check (lines 59-63). -/
def domainSection (blueprint : Py) : Except PyErr (List String) := do
  let hasDomain ← pyContains "domain" blueprint
  if hasDomain then
    let domainVal ← pySubscript blueprint "domain"
    pure (if pyInStrList domainVal valid_domains then []
          else [invalidDomainMsg domainVal])
  else pure []

/-- The input-section check (lines 66-81). -/
def inputSection (blueprint : Py) : Except PyErr (List String) := do
  let hasInput ← pyContains "input" blueprint
  if hasInput then
    let inputVal ← pySubscript blueprint "input"
    match inputVal with
    | Py.dict inputs => pure (processInputs inputs)
    | _ => pure [inputSectionMsg]
  else pure []

/-- The automation-specific check (lines 84-88): note the membership tests
run on the document root, not on the blueprint value. -/
def automationSection (data blueprint : Py) : Except PyErr (List String) := do
  let domainGet ← pyGet blueprint "domain"
  if pyEqStr domainGet "automation" then
    let hasTrigger ← pyContains "trigger" data
    let hasAction ← pyContains "action" data
    pure ((if hasTrigger then [] else [autoFieldMsg "trigger"]) ++
          (if hasAction then [] else [autoFieldMsg "action"]))
  else pure []

/-- validate_blueprint_structure (lines 41-96).  The result carries the
collected error strings, the printed console lines and the returned boolean;
a raised Python exception is the error case.  Note that in the
missing-blueprint branch the function returns before the printing loop, so
nothing is printed there. -/
def validate_blueprint_structure (data : Py) (file_path : String) :
    Except PyErr (List String × List String × Bool) := do
  let hasBlueprint ← pyContains "blueprint" data
  if !hasBlueprint then
    return ([missingBlueprintMsg], [], false)
  else
    let blueprint ← pySubscript data "blueprint"
    let fieldErrors ← fieldsSection blueprint
    let domainErrors ← domainSection blueprint
    let inputErrors ← inputSection blueprint
    let automationErrors ← automationSection data blueprint
    let errors := fieldErrors ++ domainErrors ++ inputErrors ++ automationErrors
    if errors.isEmpty then
      return ([], [okLine file_path], true)
    else
      return (errors, errors.map (failLine file_path), false)

/-- Required-field errors for a mapping blueprint descriptor (lines 53-56). -/
def blueprintFieldErrors (bp : List (String × Py)) : List String :=
  (if containsKey bp "name" then [] else [requiredFieldMsg "name"]) ++
  (if containsKey bp "description" then [] else [requiredFieldMsg "description"]) ++
  (if containsKey bp "domain" then [] else [requiredFieldMsg "domain"])

/-- Domain-validity errors for a mapping blueprint descriptor (lines 59-63). -/
def blueprintDomainErrors (bp : List (String × Py)) : List String :=
  match lookupKey bp "domain" with
  | some v => if pyInStrList v valid_domains then [] else [invalidDomainMsg v]
  | Option.none => []

/-- Input-section errors for a mapping blueprint descriptor (lines 66-81). -/
def blueprintInputErrors (bp : List (String × Py)) : List String :=
  match lookupKey bp "input" with
  | some (Py.dict inputs) => processInputs inputs
  | some _ => [inputSectionMsg]
  | Option.none => []

/-- Automation-field errors (lines 84-88). -/
def blueprintAutomationErrors (root bp : List (String × Py)) : List String :=
  if pyEqStr (dictGetD bp "domain" Py.none) "automation" then
    (if containsKey root "trigger" then [] else [autoFieldMsg "trigger"]) ++
    (if containsKey root "action" then [] else [autoFieldMsg "action"])
  else []

/-- All errors collected for a mapping document whose blueprint value is a
mapping, in the order the source appends them. -/
def blueprintErrors (root bp : List (String × Py)) : List String :=
  blueprintFieldErrors bp ++ blueprintDomainErrors bp ++
  blueprintInputErrors bp ++ blueprintAutomationErrors root bp

end validate_blueprint_schema

namespace validate_yaml_structure

/-- Handler for `!input` tags (validate_yaml_structure.py line 18). -/
def construct_input (v : String) : String := "!input " ++ v

/-- Handler for `!include` tags (validate_yaml_structure.py line 23). -/
def construct_include (v : String) : String := "!include " ++ v

/-- Handler for `!include_dir_merge_list` tags (line 28). -/
def construct_include_dir_merge_list (v : String) : String :=
  "!include_dir_merge_list " ++ v

/-- The constructor registrations on HomeAssistantLoader (lines 34-38). -/
def tag_constructors : List (String × (String → String)) :=
  [("!input", construct_input),
   ("!include", construct_include),
   ("!include_dir_merge_list", construct_include_dir_merge_list),
   ("!secret", construct_include)]

/-- Loading a scalar node carrying a custom tag under this script. -/
def load_scalar (tag : String) (value : String) : Option String :=
  match tag_constructors.lookup tag with
  | some f => some (f value)
  | Option.none => Option.none

end validate_yaml_structure

/-- Console lines printed by a validator run that did not raise. -/
def printedLinesOf (r : Except PyErr (List String × List String × Bool)) : List String :=
  match r with
  | Except.ok (_, printed, _) => printed
  | Except.error _ => []

namespace validate_blueprint_schema

/-- Exit-code logic of main (lines 157-180): 0 when discovery found no
files or when every file passed, 1 otherwise. -/
def main_exit (results : List Bool) : Nat :=
  if results = [] then 0
  else if results.count true = results.length then 0
  else 1

end validate_blueprint_schema

namespace test_blueprint_imports

/-- Warning message appended at line 86. -/
def nameFieldMsg (input_name : String) : String :=
  "Input " ++ (squote ++ (input_name ++ (squote ++ " missing name field")))

/-- Warning message appended at line 92. -/
def invalidSelectorMsg (input_name : String) : String :=
  "Input " ++ (squote ++ (input_name ++ (squote ++ " has invalid selector")))

/-- Warning message appended at lines 97-98. -/
def boolDefaultMsg (input_name : String) : String :=
  "Boolean input " ++
    (squote ++ (input_name ++ (squote ++ " should have default value")))

/-- Body of the per-input loop of validate_blueprint_inputs
(test_blueprint_imports.py lines 83-98). -/
def checkInput (input_name : String) (input_config : Py) :
    Except PyErr (List String) := do
  let hasName ← pyContains "name" input_config
  let nameIssues := if hasName then [] else [nameFieldMsg input_name]
  let hasSelector ← pyContains "selector" input_config
  let selectorIssues ←
    if hasSelector then do
      let selector ← pySubscript input_config "selector"
      pure (match selector with
        | Py.dict entries =>
          if entries.length = 1 then [] else [invalidSelectorMsg input_name]
        | _ => [invalidSelectorMsg input_name])
    else pure []
  let selObj ← pyGetDefault input_config "selector" (Py.dict [])
  let boolVal ← pyGet selObj "boolean"
  let defaultIssues ←
    if !(pyIsNone boolVal) then do
      let hasDefault ← pyContains "default" input_config
      pure (if hasDefault then [] else [boolDefaultMsg input_name])
    else pure []
  pure (nameIssues ++ selectorIssues ++ defaultIssues)

/-- The loop over all input declarations (line 83). -/
def checkInputs : List (String × Py) → Except PyErr (List String)
  | [] => Except.ok []
  | (n, c) :: rest => do
    let issues ← checkInput n c
    let more ← checkInputs rest
    pure (issues ++ more)

/-- validate_blueprint_inputs (lines 69-100): collects advisory warnings;
iterating a non-mapping input section raises AttributeError. -/
def validate_blueprint_inputs (blueprint_data : Py) : Except PyErr (List String) := do
  let hasBp ← pyContains "blueprint" blueprint_data
  if !hasBp then pure ["Missing blueprint section"]
  else
    let blueprint ← pySubscript blueprint_data "blueprint"
    let hasInput ← pyContains "input" blueprint
    if !hasInput then pure []
    else
      let inputs ← pySubscript blueprint "input"
      match inputs with
      | Py.dict entries => checkInputs entries
      | _ => Except.error PyErr.attributeError

/-- Per-file verdict logic of main (lines 138-154): a file counts as
imported when the round-trip import succeeded and the advisory input check
did not raise; warnings the check prints are otherwise ignored. -/
def processFile (blueprint_data : Py) (importOk : Bool) : Bool :=
  if importOk then
    match validate_blueprint_inputs blueprint_data with
    | Except.ok _ => true
    | Except.error _ => false
  else false

/-- Exit-code logic of main (lines 117-164). -/
def main_exit (results : List Bool) : Nat :=
  if results = [] then 0
  else if results.count true = results.length then 0
  else 1

end test_blueprint_imports

namespace check_docs_sync

/-- `isPre pat l` holds when `pat` is a prefix of `l`. -/
def isPre : List Char → List Char → Bool
  | [], _ => true
  | _ :: _, [] => false
  | a :: as, b :: bs => if a = b then isPre as bs else false

/-- Fuel-driven replacement of every non-overlapping occurrence of `pat` by
`repl`, scanning left to right; the fuel is instantiated with the input
length, which suffices for a non-empty pattern. -/
def replaceAllAux (pat repl : List Char) : Nat → List Char → List Char
  | _, [] => []
  | 0, s => s
  | Nat.succ fuel, c :: rest =>
    if isPre pat (c :: rest) then
      repl ++ replaceAllAux pat repl fuel (List.drop pat.length (c :: rest))
    else
      c :: replaceAllAux pat repl fuel rest

/-- Python str.replace: replace every occurrence of `pat` by `repl`. -/
def str_replace (s pat repl : String) : String :=
  String.mk (replaceAllAux pat.data repl.data s.data.length s.data)

/-- Expected documentation file name for a blueprint relative path
(check_docs_sync.py line 94, also lines 120 and 175): replace path
separators by dashes, then drop the occurrences of the two YAML
extensions. -/
def expected_doc_name (relative_path : String) : String :=
  str_replace (str_replace (str_replace relative_path "/" "-") ".yml" "") ".yaml" ""

end check_docs_sync

/-! ## Helper lemmas -/

/-- Reduction of a bind whose first action already succeeded. -/
theorem exbind_ok {α β : Type} (a : α) (f : α → Except PyErr β) :
    (Except.ok a : Except PyErr α) >>= f = f a := rfl

/-- Reduction of a bind whose first action already failed. -/
theorem exbind_error {α β : Type} (e : PyErr) (f : α → Except PyErr β) :
    (Except.error e : Except PyErr α) >>= f = Except.error e := rfl

/-- `pure` in the `Except PyErr` monad is `Except.ok`. -/
theorem expure_eq {α : Type} (a : α) : (pure a : Except PyErr α) = Except.ok a := rfl

/-- An if-then-else of two successes is a success of the if-then-else. -/
theorem ok_ite {α : Type} (c : Prop) [Decidable c] (x y : α) :
    (if c then (Except.ok x : Except PyErr α) else Except.ok y)
      = Except.ok (if c then x else y) := by
  split <;> rfl

/-- Membership on a dictionary is key membership and never raises. -/
theorem pyContains_dict (k : String) (es : List (String × Py)) :
    pyContains k (Py.dict es) = Except.ok (containsKey es k) := rfl

/-- `get` on a dictionary never raises. -/
theorem pyGet_dict (es : List (String × Py)) (k : String) :
    pyGet (Py.dict es) k = Except.ok (dictGetD es k Py.none) := rfl

namespace validate_blueprint_schema

/-- The field loop never raises on a mapping blueprint value. -/
theorem fieldsSection_dict (bp : List (String × Py)) :
    fieldsSection (Py.dict bp) = Except.ok (blueprintFieldErrors bp) := by
  simp only [fieldsSection, pyContains_dict, exbind_ok, expure_eq,
    blueprintFieldErrors]

/-- The domain check never raises on a mapping blueprint value. -/
theorem domainSection_dict (bp : List (String × Py)) :
    domainSection (Py.dict bp) = Except.ok (blueprintDomainErrors bp) := by
  cases hdom : lookupKey bp "domain" <;>
    simp [domainSection, pyContains_dict, pySubscript, containsKey, hdom,
      exbind_ok, expure_eq, blueprintDomainErrors]

/-- The input-section check never raises on a mapping blueprint value. -/
theorem inputSection_dict (bp : List (String × Py)) :
    inputSection (Py.dict bp) = Except.ok (blueprintInputErrors bp) := by
  cases hinp : lookupKey bp "input" with
  | none =>
    simp [inputSection, pyContains_dict, containsKey, hinp, exbind_ok, expure_eq,
      blueprintInputErrors]
  | some w =>
    cases w <;>
      simp [inputSection, pyContains_dict, pySubscript, containsKey, hinp,
        exbind_ok, expure_eq, blueprintInputErrors]

/-- The automation check never raises when root and blueprint are mappings. -/
theorem automationSection_dict (root bp : List (String × Py)) :
    automationSection (Py.dict root) (Py.dict bp)
      = Except.ok (blueprintAutomationErrors root bp) := by
  simp only [automationSection, pyGet_dict, pyContains_dict, exbind_ok, expure_eq,
    blueprintAutomationErrors]
  split <;> rfl

/-- Evaluation of the validator on a mapping document whose blueprint value
is a mapping: no exception is raised and the collected errors are
`blueprintErrors`. -/
theorem validate_dict_eval (root bp : List (String × Py)) (fp : String)
    (h : lookupKey root "blueprint" = some (Py.dict bp)) :
    validate_blueprint_structure (Py.dict root) fp =
      (if (blueprintErrors root bp).isEmpty then
        Except.ok ([], [okLine fp], true)
      else
        Except.ok (blueprintErrors root bp,
          (blueprintErrors root bp).map (failLine fp), false)) := by
  have hbk : containsKey root "blueprint" = true := by
    simp [containsKey, h]
  have hsub : pySubscript (Py.dict root) "blueprint" = Except.ok (Py.dict bp) := by
    simp [pySubscript, h]
  simp only [validate_blueprint_structure, pyContains_dict, exbind_ok, hbk, hsub,
    fieldsSection_dict, domainSection_dict, inputSection_dict,
    automationSection_dict, expure_eq, Bool.not_true, blueprintErrors]
  rfl

end validate_blueprint_schema

/-! ## Claims -/

/-- C1 counterexample: a scalar tagged `!secret` with value `v` loads as the
string `!include v`, not `!secret v`, because the `!secret` tag is registered
with the `!include` constructor. -/
theorem c1_secret_tag_counterexample :
    validate_blueprint_schema.load_scalar "!secret" "v" = some "!include v" ∧
    (some "!include v" : Option String) ≠ some "!secret v" := by
  constructor
  · rfl
  · decide

/-- C1 amended: scalars tagged `!input`, `!include` and
`!include_dir_merge_list` load as the marker string made of the own tag of
the node followed by the scalar value, while `!secret` is registered with the
`!include` constructor and loads as `!include` followed by the value. -/
theorem c1_tag_marker_strings (v : String) :
    validate_blueprint_schema.load_scalar "!input" v = some ("!input " ++ v) ∧
    validate_blueprint_schema.load_scalar "!include" v = some ("!include " ++ v) ∧
    validate_blueprint_schema.load_scalar "!include_dir_merge_list" v
      = some ("!include_dir_merge_list " ++ v) ∧
    validate_blueprint_schema.load_scalar "!secret" v = some ("!include " ++ v) := by
  refine ⟨rfl, rfl, rfl, rfl⟩

/-- C8 counterexample: there is no input on which the two loaders disagree
about acceptance; both scripts register the same four tag constructors, so
neither parses with a plain safe loader. -/
theorem c8_loaders_never_disagree :
    ¬ ∃ tag value,
      (validate_yaml_structure.load_scalar tag value = Option.none ∧
        (validate_blueprint_schema.load_scalar tag value).isSome = true) ∨
      ((validate_yaml_structure.load_scalar tag value).isSome = true ∧
        validate_blueprint_schema.load_scalar tag value = Option.none) := by
  rintro ⟨tag, value, h | h⟩
  · rw [show validate_yaml_structure.load_scalar tag value
        = validate_blueprint_schema.load_scalar tag value from rfl] at h
    rw [h.1] at h
    simp at h
  · rw [show validate_yaml_structure.load_scalar tag value
        = validate_blueprint_schema.load_scalar tag value from rfl] at h
    rw [h.2] at h
    simp at h

/-- C8 amended: the two YAML structure validator scripts define identical
tag-aware loaders; on every tagged scalar the two parses agree, and each of
the four custom tags is accepted by both. -/
theorem c8_loaders_equivalent :
    (∀ tag value, validate_yaml_structure.load_scalar tag value
        = validate_blueprint_schema.load_scalar tag value) ∧
    (∀ value tag, tag ∈ ["!input", "!include", "!include_dir_merge_list", "!secret"] →
        (validate_blueprint_schema.load_scalar tag value).isSome = true) := by
  constructor
  · intro tag value
    rfl
  · intro value tag htag
    fin_cases htag <;> rfl

/-- C8 witness: instantiating the tag-acceptance part at the `!secret` tag. -/
theorem c8_loaders_equivalent_witness :
    (validate_blueprint_schema.load_scalar "!secret" "api_key").isSome = true :=
  c8_loaders_equivalent.2 "api_key" "!secret" (by decide)

/-- C4: on any document in which the membership test for the blueprint key
succeeds and is false, validation returns exactly the single
missing-section error, prints nothing, fails the file, and applies no
further rule. -/
theorem c4_missing_blueprint_single_error (data : Py) (fp : String)
    (h : pyContains "blueprint" data = Except.ok false) :
    validate_blueprint_schema.validate_blueprint_structure data fp
      = Except.ok ([validate_blueprint_schema.missingBlueprintMsg], [], false) := by
  simp [validate_blueprint_schema.validate_blueprint_structure, h, exbind_ok,
    expure_eq]

/-- C4 witness: the empty document. -/
theorem c4_missing_blueprint_single_error_witness :
    validate_blueprint_schema.validate_blueprint_structure (Py.dict []) "bp.yaml"
      = Except.ok ([validate_blueprint_schema.missingBlueprintMsg], [], false) :=
  c4_missing_blueprint_single_error (Py.dict []) "bp.yaml" rfl

/-- C5: selector validation appends exactly one shape error (naming the
input) for a mapping selector with key count different from one, exactly one
invalid-type error for a single key outside the valid-type set, and no error
for a single key inside it. -/
theorem c5_selector_rules :
    (∀ (entries : List (String × Py)) (name : String),
        (entries.map Prod.fst).Nodup → entries.length ≠ 1 →
        validate_blueprint_schema.validate_selector (Py.dict entries) name
          = [validate_blueprint_schema.inputMsg name
              " selector must have exactly one type"]) ∧
    (∀ (k : String) (v : Py) (name : String),
        k ∉ validate_blueprint_schema.valid_selectors →
        validate_blueprint_schema.validate_selector (Py.dict [(k, v)]) name
          = [validate_blueprint_schema.inputMsg name
              (" has invalid selector type: " ++ k)]) ∧
    (∀ (k : String) (v : Py) (name : String),
        k ∈ validate_blueprint_schema.valid_selectors →
        validate_blueprint_schema.validate_selector (Py.dict [(k, v)]) name
          = []) := by
  refine ⟨?_, ?_, ?_⟩
  · intro entries name _ hlen
    simp [validate_blueprint_schema.validate_selector, hlen]
  · intro k v name hk
    simp [validate_blueprint_schema.validate_selector, hk]
  · intro k v name hk
    simp [validate_blueprint_schema.validate_selector, hk]

/-- C5 witness: an empty selector, an unknown single-key selector, and a
boolean selector. -/
theorem c5_selector_rules_witness :
    validate_blueprint_schema.validate_selector (Py.dict []) "x"
      = [validate_blueprint_schema.inputMsg "x"
          " selector must have exactly one type"] ∧
    validate_blueprint_schema.validate_selector
        (Py.dict [("frobnicate", Py.none)]) "x"
      = [validate_blueprint_schema.inputMsg "x"
          (" has invalid selector type: " ++ "frobnicate")] ∧
    validate_blueprint_schema.validate_selector
        (Py.dict [("boolean", Py.none)]) "x" = [] :=
  ⟨c5_selector_rules.1 [] "x" (by decide) (by decide),
   c5_selector_rules.2.1 "frobnicate" Py.none "x" (by decide),
   c5_selector_rules.2.2 "boolean" Py.none "x" (by decide)⟩

/-- Concatenating strings concatenates their character lists. -/
theorem string_data_append (s t : String) : (s ++ t).data = s.data ++ t.data := by
  cases s
  cases t
  rfl

/-- Two appended strings whose left parts start with different characters
are different. -/
theorem append_ne_of_head (a b x y : String) (c d : Char)
    (ha : a.data.head? = some c) (hb : b.data.head? = some d) (hcd : c ≠ d) :
    a ++ x ≠ b ++ y := by
  intro h
  have h2 : a.data ++ x.data = b.data ++ y.data := by
    have h3 := congrArg String.data h
    rwa [string_data_append, string_data_append] at h3
  cases ea : a.data with
  | nil => rw [ea] at ha; simp at ha
  | cons c0 ta =>
    cases eb : b.data with
    | nil => rw [eb] at hb; simp at hb
    | cons d0 tb =>
      rw [ea] at ha
      rw [eb] at hb
      simp only [List.head?_cons, Option.some.injEq] at ha hb
      rw [ea, eb] at h2
      simp only [List.cons_append, List.cons.injEq] at h2
      exact hcd (by rw [← ha, ← hb]; exact h2.1)

namespace validate_blueprint_schema

/-- A message naming an input is never an automation-field message. -/
theorem inputMsg_ne_autoFieldMsg (name suffix field : String) :
    inputMsg name suffix ≠ autoFieldMsg field := by
  unfold inputMsg autoFieldMsg
  exact append_ne_of_head _ _ _ _ (Char.ofNat 73) (Char.ofNat 77) rfl rfl (by decide)

/-- An invalid-domain message is never an automation-field message. -/
theorem invalidDomainMsg_ne_autoFieldMsg (v : Py) (field : String) :
    invalidDomainMsg v ≠ autoFieldMsg field := by
  unfold invalidDomainMsg autoFieldMsg
  exact append_ne_of_head _ _ _ _ (Char.ofNat 73) (Char.ofNat 77) rfl rfl (by decide)

/-- Every error appended by validate_selector names the offending input. -/
theorem mem_validate_selector (sel : Py) (n m : String)
    (hm : m ∈ validate_selector sel n) : ∃ sfx, m = inputMsg n sfx := by
  cases sel <;> simp only [validate_selector, List.mem_singleton] at hm
  case dict entries =>
    split at hm
    · split at hm
      · split at hm
        · simp at hm
        · simp at hm
          exact ⟨_, hm⟩
      · simp at hm
    · simp at hm
      exact ⟨_, hm⟩
  all_goals exact ⟨_, hm⟩

/-- Every error appended for one input declaration names an input. -/
theorem mem_processInput (n : String) (c : Py) (m : String)
    (hm : m ∈ processInput n c) : ∃ nm sfx, m = inputMsg nm sfx := by
  cases c <;> simp only [processInput, List.mem_singleton] at hm
  case dict cfg =>
    rw [List.mem_append] at hm
    rcases hm with hm | hm
    · split at hm
      · simp at hm
      · simp at hm
        exact ⟨n, _, hm⟩
    · rcases hsel : lookupKey cfg "selector" with _ | sel
      · rw [hsel] at hm; simp at hm
      · rw [hsel] at hm
        obtain ⟨sfx, rfl⟩ := mem_validate_selector sel n m hm
        exact ⟨n, sfx, rfl⟩
  all_goals exact ⟨n, _, hm⟩

/-- No automation-field message is ever produced by the input loop. -/
theorem autoFieldMsg_not_mem_processInputs (inputs : List (String × Py)) (f : String) :
    autoFieldMsg f ∉ processInputs inputs := by
  induction inputs with
  | nil => simp [processInputs]
  | cons e rest ih =>
    rcases e with ⟨n, c⟩
    simp only [processInputs, List.mem_append]
    rintro (hm | hm)
    · obtain ⟨nm, sfx, heq⟩ := mem_processInput n c _ hm
      exact inputMsg_ne_autoFieldMsg nm sfx f heq.symm
    · exact ih hm

end validate_blueprint_schema

namespace validate_blueprint_schema

/-- The required-field errors never contain an automation-field message. -/
theorem count_auto_fieldErrors (bp : List (String × Py)) (f : String)
    (hf : f = "trigger" ∨ f = "action") :
    (blueprintFieldErrors bp).count (autoFieldMsg f) = 0 := by
  rcases hf with rfl | rfl <;>
    (unfold blueprintFieldErrors
     split_ifs <;> simp <;> decide)

/-- The domain errors never contain an automation-field message. -/
theorem count_auto_domainErrors (bp : List (String × Py)) (f : String) :
    (blueprintDomainErrors bp).count (autoFieldMsg f) = 0 := by
  unfold blueprintDomainErrors
  cases lookupKey bp "domain" with
  | none => simp
  | some v =>
    dsimp only
    split_ifs
    · simp
    · simp only [List.count_singleton]
      rw [if_neg]
      simp only [beq_iff_eq]
      exact invalidDomainMsg_ne_autoFieldMsg v f

/-- The input-section errors never contain an automation-field message. -/
theorem count_auto_inputErrors (bp : List (String × Py)) (f : String)
    (hf : f = "trigger" ∨ f = "action") :
    (blueprintInputErrors bp).count (autoFieldMsg f) = 0 := by
  unfold blueprintInputErrors
  cases hinp : lookupKey bp "input" with
  | none => simp
  | some w =>
    cases w
    case dict inputs =>
      rw [List.count_eq_zero]
      intro hm
      exact autoFieldMsg_not_mem_processInputs inputs f hm
    all_goals (rcases hf with rfl | rfl <;> simp <;> decide)

/-- Count of the trigger message among all collected errors. -/
theorem count_auto_trigger (root bp : List (String × Py)) :
    (blueprintErrors root bp).count (autoFieldMsg "trigger")
      = (if pyEqStr (dictGetD bp "domain" Py.none) "automation" = true ∧
            containsKey root "trigger" = false then 1 else 0) := by
  unfold blueprintErrors
  rw [List.count_append, List.count_append, List.count_append,
    count_auto_fieldErrors bp _ (Or.inl rfl), count_auto_domainErrors,
    count_auto_inputErrors bp _ (Or.inl rfl)]
  simp only [Nat.zero_add]
  unfold blueprintAutomationErrors
  cases hc : pyEqStr (dictGetD bp "domain" Py.none) "automation"
  · simp [hc]
  · cases ht : containsKey root "trigger" <;> cases ha : containsKey root "action" <;>
      simp [hc, ht, ha] <;> decide

/-- Count of the action message among all collected errors. -/
theorem count_auto_action (root bp : List (String × Py)) :
    (blueprintErrors root bp).count (autoFieldMsg "action")
      = (if pyEqStr (dictGetD bp "domain" Py.none) "automation" = true ∧
            containsKey root "action" = false then 1 else 0) := by
  unfold blueprintErrors
  rw [List.count_append, List.count_append, List.count_append,
    count_auto_fieldErrors bp _ (Or.inr rfl), count_auto_domainErrors,
    count_auto_inputErrors bp _ (Or.inr rfl)]
  simp only [Nat.zero_add]
  unfold blueprintAutomationErrors
  cases hc : pyEqStr (dictGetD bp "domain" Py.none) "automation"
  · simp [hc]
  · cases ht : containsKey root "trigger" <;> cases ha : containsKey root "action" <;>
      simp [hc, ht, ha] <;> decide

end validate_blueprint_schema

/-- C6: on a mapping document whose blueprint value is a mapping, the
validator emits the automation-field error for trigger exactly when the
blueprint domain equals automation and trigger is absent from the document
root, and likewise for action; for any other domain value the count is
zero.  The counts do not depend on the blueprint-level field checks. -/
theorem c6_automation_root_fields (root bp : List (String × Py)) (fp : String)
    (h : lookupKey root "blueprint" = some (Py.dict bp)) :
    ∃ errs printed verdict,
      validate_blueprint_schema.validate_blueprint_structure (Py.dict root) fp
        = Except.ok (errs, printed, verdict) ∧
      errs.count (validate_blueprint_schema.autoFieldMsg "trigger")
        = (if pyEqStr (dictGetD bp "domain" Py.none) "automation" = true ∧
              containsKey root "trigger" = false then 1 else 0) ∧
      errs.count (validate_blueprint_schema.autoFieldMsg "action")
        = (if pyEqStr (dictGetD bp "domain" Py.none) "automation" = true ∧
              containsKey root "action" = false then 1 else 0) := by
  have hval := validate_blueprint_schema.validate_dict_eval root bp fp h
  cases he : (validate_blueprint_schema.blueprintErrors root bp).isEmpty
  · rw [he] at hval
    simp only [Bool.false_eq_true, if_false] at hval
    exact ⟨_, _, _, hval,
      validate_blueprint_schema.count_auto_trigger root bp,
      validate_blueprint_schema.count_auto_action root bp⟩
  · have hnil : validate_blueprint_schema.blueprintErrors root bp = [] := by
      simpa [List.isEmpty_iff] using he
    rw [he] at hval
    simp only [if_true] at hval
    refine ⟨[], [validate_blueprint_schema.okLine fp], true, hval, ?_, ?_⟩
    · have h1 := validate_blueprint_schema.count_auto_trigger root bp
      rw [hnil] at h1
      simpa using h1
    · have h1 := validate_blueprint_schema.count_auto_action root bp
      rw [hnil] at h1
      simpa using h1

/-- C6 witness: an automation blueprint whose document root lacks both
trigger and action. -/
theorem c6_automation_root_fields_witness :
    ∃ errs printed verdict,
      validate_blueprint_schema.validate_blueprint_structure
          (Py.dict [("blueprint", Py.dict [("domain", Py.str "automation")])])
          "bp.yaml"
        = Except.ok (errs, printed, verdict) ∧
      errs.count (validate_blueprint_schema.autoFieldMsg "trigger")
        = (if pyEqStr (dictGetD [("domain", Py.str "automation")] "domain" Py.none)
                "automation" = true ∧
              containsKey [("blueprint", Py.dict [("domain", Py.str "automation")])]
                "trigger" = false then 1 else 0) ∧
      errs.count (validate_blueprint_schema.autoFieldMsg "action")
        = (if pyEqStr (dictGetD [("domain", Py.str "automation")] "domain" Py.none)
                "automation" = true ∧
              containsKey [("blueprint", Py.dict [("domain", Py.str "automation")])]
                "action" = false then 1 else 0) :=
  c6_automation_root_fields
    [("blueprint", Py.dict [("domain", Py.str "automation")])]
    [("domain", Py.str "automation")] "bp.yaml" rfl

/-- C3 counterexample: the schema validator is neither total nor free of
side effects.  On the document binding blueprint to the integer 5 the
membership test of line 55 raises a TypeError, and on a failing mapping
document the validator prints the error lines itself (lines 90-92) rather
than leaving printing to the caller. -/
theorem c3_validator_counterexample :
    validate_blueprint_schema.validate_blueprint_structure
        (Py.dict [("blueprint", Py.int 5)]) "bp.yaml"
      = Except.error PyErr.typeError ∧
    printedLinesOf (validate_blueprint_schema.validate_blueprint_structure
        (Py.dict [("blueprint", Py.dict [])]) "bp.yaml") ≠ [] := by
  constructor
  · rfl
  · decide

/-- C3 amended: on documents that are mappings whose blueprint value is also
a mapping, validation always completes without exception (and, being a Lean
function, is a deterministic pure function of the document); for some
non-mapping blueprint values it raises, and it prints its own report lines,
returning a boolean verdict alongside the collected errors. -/
theorem c3_validator_total_on_mappings (root bp : List (String × Py)) (fp : String)
    (h : lookupKey root "blueprint" = some (Py.dict bp)) :
    ∃ r, validate_blueprint_schema.validate_blueprint_structure (Py.dict root) fp
      = Except.ok r := by
  rw [validate_blueprint_schema.validate_dict_eval root bp fp h]
  split <;> exact ⟨_, rfl⟩

/-- C3 witness: a mapping document with an empty blueprint mapping. -/
theorem c3_validator_total_on_mappings_witness :
    ∃ r, validate_blueprint_schema.validate_blueprint_structure
        (Py.dict [("blueprint", Py.dict [])]) "bp.yaml" = Except.ok r :=
  c3_validator_total_on_mappings [("blueprint", Py.dict [])] [] "bp.yaml" rfl

/-- C2 counterexample: on a blueprint whose input section is a list, the
advisory input check raises AttributeError, the file is counted as failed
although the import round-trip succeeded, and the exit code becomes 1. -/
theorem c2_advisory_check_counterexample :
    test_blueprint_imports.validate_blueprint_inputs
        (Py.dict [("blueprint", Py.dict [("input", Py.list [Py.str "x"])])])
      = Except.error PyErr.attributeError ∧
    test_blueprint_imports.processFile
        (Py.dict [("blueprint", Py.dict [("input", Py.list [Py.str "x"])])]) true
      = false ∧
    test_blueprint_imports.main_exit
        [test_blueprint_imports.processFile
          (Py.dict [("blueprint", Py.dict [("input", Py.list [Py.str "x"])])]) true]
      = 1 := by
  refine ⟨rfl, rfl, ?_⟩
  decide

/-- C2 amended: the relaxed input check is advisory only as long as it
returns normally: whatever warnings it collects, the verdict of the file
equals the import round-trip outcome and a lone passing file yields exit
code 0; but when the check raises an exception the file is counted as
failed. -/
theorem c2_advisory_check_on_success (d : Py) (issues : List String)
    (h : test_blueprint_imports.validate_blueprint_inputs d = Except.ok issues) :
    test_blueprint_imports.processFile d true = true ∧
    test_blueprint_imports.processFile d false = false ∧
    test_blueprint_imports.main_exit [test_blueprint_imports.processFile d true]
      = 0 := by
  have hp : test_blueprint_imports.processFile d true = true := by
    simp [test_blueprint_imports.processFile, h]
  refine ⟨hp, by simp [test_blueprint_imports.processFile], ?_⟩
  rw [hp]
  rfl

/-- C2 witness: a blueprint input missing its name produces a warning, yet
the file passes and the exit code stays 0. -/
theorem c2_advisory_check_on_success_witness :
    test_blueprint_imports.validate_blueprint_inputs
        (Py.dict [("blueprint", Py.dict [("input", Py.dict [("foo", Py.dict [])])])])
      = Except.ok [test_blueprint_imports.nameFieldMsg "foo"] ∧
    test_blueprint_imports.processFile
        (Py.dict [("blueprint", Py.dict [("input", Py.dict [("foo", Py.dict [])])])])
        true = true :=
  ⟨rfl,
   (c2_advisory_check_on_success
     (Py.dict [("blueprint", Py.dict [("input", Py.dict [("foo", Py.dict [])])])])
     [test_blueprint_imports.nameFieldMsg "foo"] rfl).1⟩

/-- C9: the schema driver exits 0 exactly when every discovered file passed;
an empty discovery exits 0 and any failing file forces exit code 1. -/
theorem c9_schema_exit_code :
    (∀ results : List Bool,
        (validate_blueprint_schema.main_exit results = 0 ↔ ∀ r ∈ results, r = true)) ∧
    validate_blueprint_schema.main_exit [] = 0 ∧
    (∀ results : List Bool, false ∈ results →
        validate_blueprint_schema.main_exit results = 1) := by
  refine ⟨?_, rfl, ?_⟩
  · intro results
    unfold validate_blueprint_schema.main_exit
    split_ifs with h1 h2
    · subst h1
      simp
    · simp only [true_iff]
      intro b hb
      exact (List.count_eq_length.mp h2 b hb).symm
    · constructor
      · intro h
        exact absurd h (by decide)
      · intro hall
        exact absurd (List.count_eq_length.mpr fun b hb => (hall b hb).symm) h2
  · intro results hf
    unfold validate_blueprint_schema.main_exit
    split_ifs with h1 h2
    · subst h1
      simp at hf
    · exact absurd (List.count_eq_length.mp h2 false hf) (by decide)
    · rfl

/-- C9 witness: a passing file, an empty discovery and a failing file. -/
theorem c9_schema_exit_code_witness :
    validate_blueprint_schema.main_exit [true] = 0 ∧
    validate_blueprint_schema.main_exit [] = 0 ∧
    validate_blueprint_schema.main_exit [true, false] = 1 :=
  ⟨(c9_schema_exit_code.1 [true]).mpr (by simp),
   c9_schema_exit_code.2.1,
   c9_schema_exit_code.2.2 [true, false] (by simp)⟩

namespace test_blueprint_imports

/-- The boolean-default warning is never the missing-name warning. -/
theorem boolDefaultMsg_ne_nameFieldMsg (n1 n2 : String) :
    boolDefaultMsg n1 ≠ nameFieldMsg n2 := by
  unfold boolDefaultMsg nameFieldMsg
  exact append_ne_of_head _ _ _ _ (Char.ofNat 66) (Char.ofNat 73) rfl rfl (by decide)

/-- The boolean-default warning is never the invalid-selector warning. -/
theorem boolDefaultMsg_ne_invalidSelectorMsg (n1 n2 : String) :
    boolDefaultMsg n1 ≠ invalidSelectorMsg n2 := by
  unfold boolDefaultMsg invalidSelectorMsg
  exact append_ne_of_head _ _ _ _ (Char.ofNat 66) (Char.ofNat 73) rfl rfl (by decide)

end test_blueprint_imports

/-- C10: for an input declaration that is a mapping, whose selector is a
mapping binding the boolean key to null, and which has no default field,
the advisory check completes and emits no boolean-default warning. -/
theorem c10_null_boolean_no_default_warning (name : String)
    (cfg selEntries : List (String × Py))
    (hsel : lookupKey cfg "selector" = some (Py.dict selEntries))
    (hbool : lookupKey selEntries "boolean" = some Py.none)
    (_hdef : containsKey cfg "default" = false) :
    ∃ issues, test_blueprint_imports.checkInput name (Py.dict cfg)
        = Except.ok issues ∧
      test_blueprint_imports.boolDefaultMsg name ∉ issues := by
  have h1 : containsKey cfg "selector" = true := by
    simp [containsKey, hsel]
  have h2 : pySubscript (Py.dict cfg) "selector" = Except.ok (Py.dict selEntries) := by
    simp [pySubscript, hsel]
  have h3 : pyGetDefault (Py.dict cfg) "selector" (Py.dict [])
      = Except.ok (Py.dict selEntries) := by
    simp [pyGetDefault, dictGetD, hsel]
  have h4 : pyGet (Py.dict selEntries) "boolean" = Except.ok Py.none := by
    simp [pyGet, pyGetDefault, dictGetD, hbool]
  simp only [test_blueprint_imports.checkInput, pyContains_dict, exbind_ok, h1, h2,
    h3, h4, expure_eq, pyIsNone, Bool.not_true, Bool.false_eq_true, if_false,
    if_true, List.append_nil]
  refine ⟨_, rfl, ?_⟩
  intro hmem
  rcases List.mem_append.mp hmem with hm | hm
  · split at hm
    · simp at hm
    · rw [List.mem_singleton] at hm
      exact test_blueprint_imports.boolDefaultMsg_ne_nameFieldMsg name name hm
  · split at hm
    · simp at hm
    · rw [List.mem_singleton] at hm
      exact test_blueprint_imports.boolDefaultMsg_ne_invalidSelectorMsg name name hm

/-- C10 witness: a null boolean selector with no default field. -/
theorem c10_null_boolean_no_default_warning_witness :
    ∃ issues, test_blueprint_imports.checkInput "x"
        (Py.dict [("name", Py.str "X"),
          ("selector", Py.dict [("boolean", Py.none)])])
        = Except.ok issues ∧
      test_blueprint_imports.boolDefaultMsg "x" ∉ issues :=
  c10_null_boolean_no_default_warning "x"
    [("name", Py.str "X"), ("selector", Py.dict [("boolean", Py.none)])]
    [("boolean", Py.none)] rfl rfl rfl

namespace check_docs_sync

/-- Every list is a prefix of itself. -/
theorem isPre_refl (l : List Char) : isPre l l = true := by
  induction l with
  | nil => rfl
  | cons c rest ih => simp [isPre, ih]

/-- Replacement on the empty list is the empty list, whatever the fuel. -/
theorem replaceAllAux_nil (pat repl : List Char) (fuel : Nat) :
    replaceAllAux pat repl fuel [] = [] := by
  cases fuel <;> rfl

/-- Unfolding of the replacement scan on a non-empty list. -/
theorem replaceAllAux_succ (pat repl : List Char) (fuel : Nat) (c : Char)
    (rest : List Char) :
    replaceAllAux pat repl (fuel + 1) (c :: rest) =
      if isPre pat (c :: rest) then
        repl ++ replaceAllAux pat repl fuel (List.drop pat.length (c :: rest))
      else c :: replaceAllAux pat repl fuel rest := rfl

/-- If the pattern occurs nowhere, replacement is the identity. -/
theorem replaceAllAux_no_occur (pat repl : List Char) :
    ∀ (fuel : Nat) (s : List Char), s.length ≤ fuel →
    (∀ i, i < s.length → isPre pat (List.drop i s) = false) →
    replaceAllAux pat repl fuel s = s := by
  intro fuel
  induction fuel with
  | zero =>
    intro s hs _
    have : s = [] := List.eq_nil_of_length_eq_zero (Nat.le_zero.mp hs)
    subst this
    exact replaceAllAux_nil pat repl 0
  | succ fuel ih =>
    intro s hs h
    cases s with
    | nil => exact replaceAllAux_nil pat repl _
    | cons c rest =>
      have h0 : isPre pat (c :: rest) = false := by
        simpa using h 0 (by simp)
      rw [replaceAllAux_succ, h0]
      simp only [Bool.false_eq_true, if_false, List.cons.injEq, true_and]
      exact ih rest (by simpa using Nat.lt_succ_iff.mp (Nat.lt_of_lt_of_le
        (by simp) (Nat.le_of_lt_succ (Nat.lt_succ_of_le hs))))
        (fun i hi => by simpa using h (i + 1) (by simpa using Nat.succ_lt_succ hi))

/-- If the only occurrence of the non-empty pattern is the final one,
replacement by the empty list strips exactly that occurrence. -/
theorem replaceAllAux_strip_final (pat : List Char) (hpat : pat ≠ []) :
    ∀ (fuel : Nat) (s : List Char), (s ++ pat).length ≤ fuel →
    (∀ i, i < s.length → isPre pat (List.drop i (s ++ pat)) = false) →
    replaceAllAux pat [] fuel (s ++ pat) = s := by
  intro fuel
  induction fuel with
  | zero =>
    intro s hs _
    exfalso
    cases pat with
    | nil => exact hpat rfl
    | cons p pr => simp [List.length_append] at hs
  | succ fuel ih =>
    intro s hs h
    cases s with
    | nil =>
      cases pat with
      | nil => exact absurd rfl hpat
      | cons p pr =>
        simp only [List.nil_append]
        rw [replaceAllAux_succ, isPre_refl]
        simp only [if_true, List.nil_append]
        rw [show (p :: pr).length = (p :: pr).length from rfl, List.drop_length]
        exact replaceAllAux_nil _ _ _
    | cons c rest =>
      have h0 : isPre pat (c :: (rest ++ pat)) = false := by
        simpa using h 0 (by simp)
      simp only [List.cons_append]
      rw [replaceAllAux_succ, h0]
      simp only [Bool.false_eq_true, if_false, List.cons.injEq, true_and]
      refine ih rest ?_ (fun i hi => ?_)
      · simp only [List.length_append, List.length_cons] at hs ⊢
        omega
      · simpa using h (i + 1) (by simpa using Nat.succ_lt_succ hi)

/-- Rebuilding a string from its own characters. -/
theorem string_mk_data (s : String) : String.mk s.data = s := by
  cases s
  rfl

/-- String-level identity replacement when the pattern never occurs. -/
theorem str_replace_no_occur (s pat repl : String)
    (h : ∀ i, i < s.data.length → isPre pat.data (List.drop i s.data) = false) :
    str_replace s pat repl = s := by
  unfold str_replace
  rw [replaceAllAux_no_occur pat.data repl.data s.data.length s.data (le_refl _) h,
    string_mk_data]

/-- String-level stripping of a unique final occurrence. -/
theorem str_replace_strip_final (s pat : String) (hpat : pat.data ≠ [])
    (h : ∀ i, i < s.data.length →
        isPre pat.data (List.drop i (s.data ++ pat.data)) = false) :
    str_replace (s ++ pat) pat "" = s := by
  unfold str_replace
  have hd : (s ++ pat).data = s.data ++ pat.data := string_data_append s pat
  rw [hd]
  have hlen : (s.data ++ pat.data).length ≤ (s.data ++ pat.data).length := le_refl _
  rw [show ("" : String).data = [] from rfl,
    replaceAllAux_strip_final pat.data hpat (s.data ++ pat.data).length s.data hlen h,
    string_mk_data]

/-- Single-character replacement is a character map. -/
theorem replaceAllAux_single (a b : Char) :
    ∀ (fuel : Nat) (s : List Char), s.length ≤ fuel →
    replaceAllAux [a] [b] fuel s = s.map (fun c => if c = a then b else c) := by
  intro fuel
  induction fuel with
  | zero =>
    intro s hs
    have : s = [] := List.eq_nil_of_length_eq_zero (Nat.le_zero.mp hs)
    subst this
    rfl
  | succ fuel ih =>
    intro s hs
    cases s with
    | nil => exact replaceAllAux_nil _ _ _
    | cons c rest =>
      rw [replaceAllAux_succ]
      have hrest : rest.length ≤ fuel := by
        simpa using Nat.le_of_succ_le_succ hs
      by_cases hac : a = c
      · subst hac
        simp [isPre, ih rest hrest]
      · have hpre : isPre [a] (c :: rest) = false := by
          simp [isPre, hac]
        rw [hpre]
        simp only [Bool.false_eq_true, if_false, List.map_cons]
        rw [if_neg (fun hh => hac hh.symm)]
        simp [ih rest hrest]

/-- Replacing the path separator distributes over an extension free of
separators. -/
theorem str_replace_slash_append (s t : String)
    (ht : t.data.map (fun c => if c = Char.ofNat 47 then Char.ofNat 45 else c)
        = t.data) :
    str_replace (s ++ t) "/" "-" = str_replace s "/" "-" ++ t := by
  unfold str_replace
  have h47 : ("/" : String).data = [Char.ofNat 47] := by decide
  have h45 : ("-" : String).data = [Char.ofNat 45] := by decide
  rw [string_data_append, h47, h45,
    replaceAllAux_single _ _ (s.data ++ t.data).length (s.data ++ t.data) (le_refl _),
    replaceAllAux_single _ _ s.data.length s.data (le_refl _),
    List.map_append, ht]
  cases s
  cases t
  rfl

end check_docs_sync

/-- C7 counterexample: for the blueprint file name my.yml.yaml the code
computes the documentation name my, while stripping only the trailing YAML
extension would give my.yml: the replace calls remove every occurrence of
the extensions, not only a trailing one. -/
theorem c7_doc_name_counterexample :
    check_docs_sync.expected_doc_name "my.yml.yaml" = "my" ∧
    ("my" : String) ≠ "my.yml" := by
  constructor
  · rfl
  · decide

/-- C7 amended: the expected documentation name replaces every path
separator by a dash and then removes every occurrence of .yml and then of
.yaml anywhere in the result, not only a trailing extension; whenever the
extensions occur in the separator-replaced path only as the trailing
extension, this coincides with stripping the trailing extension. -/
theorem c7_doc_name_strip_extension :
    (∀ stem : String,
      (∀ i, i < (check_docs_sync.str_replace stem "/" "-").data.length →
        check_docs_sync.isPre (".yml" : String).data
          (List.drop i ((check_docs_sync.str_replace stem "/" "-").data
            ++ (".yml" : String).data)) = false) →
      (∀ i, i < (check_docs_sync.str_replace stem "/" "-").data.length →
        check_docs_sync.isPre (".yaml" : String).data
          (List.drop i (check_docs_sync.str_replace stem "/" "-").data) = false) →
      check_docs_sync.expected_doc_name (stem ++ ".yml")
        = check_docs_sync.str_replace stem "/" "-") ∧
    (∀ stem : String,
      (∀ i, i < ((check_docs_sync.str_replace stem "/" "-").data
          ++ (".yaml" : String).data).length →
        check_docs_sync.isPre (".yml" : String).data
          (List.drop i ((check_docs_sync.str_replace stem "/" "-").data
            ++ (".yaml" : String).data)) = false) →
      (∀ i, i < (check_docs_sync.str_replace stem "/" "-").data.length →
        check_docs_sync.isPre (".yaml" : String).data
          (List.drop i ((check_docs_sync.str_replace stem "/" "-").data
            ++ (".yaml" : String).data)) = false) →
      check_docs_sync.expected_doc_name (stem ++ ".yaml")
        = check_docs_sync.str_replace stem "/" "-") := by
  constructor
  · intro stem h1 h2
    unfold check_docs_sync.expected_doc_name
    rw [check_docs_sync.str_replace_slash_append stem ".yml" (by decide),
      check_docs_sync.str_replace_strip_final
        (check_docs_sync.str_replace stem "/" "-") ".yml" (by decide) h1,
      check_docs_sync.str_replace_no_occur
        (check_docs_sync.str_replace stem "/" "-") ".yaml" "" h2]
  · intro stem h1 h2
    unfold check_docs_sync.expected_doc_name
    rw [check_docs_sync.str_replace_slash_append stem ".yaml" (by decide)]
    have hdapp : (check_docs_sync.str_replace stem "/" "-" ++ ".yaml").data
        = (check_docs_sync.str_replace stem "/" "-").data ++ (".yaml" : String).data :=
      string_data_append _ _
    rw [check_docs_sync.str_replace_no_occur
        (check_docs_sync.str_replace stem "/" "-" ++ ".yaml") ".yml" ""
        (fun i hi => by
          rw [hdapp] at hi ⊢
          exact h1 i hi),
      check_docs_sync.str_replace_strip_final
        (check_docs_sync.str_replace stem "/" "-") ".yaml" (by decide) h2]

/-- C7 witness: a path with one separator and a clean stem. -/
theorem c7_doc_name_strip_extension_witness :
    check_docs_sync.expected_doc_name ("automation/motion_light" ++ ".yaml")
      = check_docs_sync.str_replace "automation/motion_light" "/" "-" :=
  c7_doc_name_strip_extension.2 "automation/motion_light" (by decide) (by decide)
